import Mathlib

/-!
Shallow embedding of the repository-synchronization engine of
fabianoflorentino/whiterose, from `src/git/git.go` and
`src/utils/get_env_or_default.go`.

The Go process environment (`os.Getenv`) is modelled as a total map
`Env : String → String`: in Go an unset variable reads as the empty
string, so set-to-empty and unset are one and the same value here,
exactly as `os.Getenv` presents them.

Everything the code obtains from the outside world — `os.Stat`,
`os.ReadFile`, `os.UserHomeDir`, and the go-git library calls
(`ssh.NewPublicKeys`, `git.PlainClone`, `repo.Worktree`,
`worktree.Checkout`) — is parametrised by a `World` structure.  The
mutable filesystem is the list of existing paths threaded through
`clone` and `fetchRepositories`; `git.PlainClone` adds the target
directory to it on success, and nothing ever removes a path, matching
the source, which never deletes.
-/

/-- Process environment: `env key` is what `os.Getenv(key)` returns
(the empty string when the variable is unset). -/
def Env : Type := String → String

/-- Model of `utils.GetEnvOrDefault` from `src/utils/get_env_or_default.go`:
returns the variable's value when it is non-empty, the default
otherwise. -/
def GetEnvOrDefault (env : Env) (key defaultValue : String) : String :=
  if env key ≠ "" then env key else defaultValue

/-- Model of `git.GitCloneOptions` from `src/git/git.go`. -/
structure GitCloneOptions where
  url : String
  directory : String
  username : String
  password : String
  sshKeyPath : String
  sshKeyName : String
deriving DecidableEq

/-- The per-repository field population performed by the loop in
`GitCloneOptions.Setup` (`src/git/git.go` lines 51–56). -/
def setupRepo (env : Env) (r : GitCloneOptions) : GitCloneOptions :=
  { r with
    username := GetEnvOrDefault env "GIT_USER" ""
    password := GetEnvOrDefault env "GIT_TOKEN" ""
    sshKeyPath := GetEnvOrDefault env "SSH_KEY_PATH" ""
    sshKeyName := GetEnvOrDefault env "SSH_KEY_NAME" "id_rsa" }

/-- Errors produced inside `createSSHAuth`. -/
inductive SSHAuthError
  /-- Lookup of `os.UserHomeDir` failed. -/
  | homeDirLookupFailed
  /-- Reading the key file `os.ReadFile(keyPath)` failed; carries the path that was read. -/
  | readKeyFailed (path : String)
  /-- Building `ssh.NewPublicKeys("git", sshKey, "")` failed. -/
  | parseKeyFailed (path : String)
deriving DecidableEq

/-- Errors returned by `clone` (each corresponds to one wrapped
`fmt.Errorf` return in the source). -/
inductive GitError
  /-- Error "directory %s already exists". -/
  | directoryExistsError (dir : String)
  /-- Error "failed to create SSH auth: %w". -/
  | sshAuthError (e : SSHAuthError)
  /-- Error "failed to clone repository: %w". -/
  | cloneError (url : String)
  /-- Error "failed to get worktree: %w". -/
  | worktreeError
  /-- Error "failed to create and checkout branch %s: %w". -/
  | branchCreateError (branch : String)
deriving DecidableEq

/-- The authentication value assigned to `cloneOpts.Auth`.
`http.BasicAuth` carries the username and password fields assigned in
the source; `ssh.PublicKeys` is represented by the key-file path it was
built from together with the raw key bytes handed to
`ssh.NewPublicKeys("git", sshKey, "")`. -/
inductive Credentials
  | basicAuth (username password : String)
  | sshAuth (keyPath : String) (sshKey : String)
deriving DecidableEq

/-- State of the cloned repository relevant to branch resolution:
its local branch names, the commit each branch points at (an
association list), and the branch the working tree currently has
checked out. -/
structure RepoState where
  branches : List String
  tips : List (String × String)
  head : String
deriving DecidableEq

/-- The outside world: filesystem attributes and the behaviour of the
go-git library calls, which are external to this repository.
`statSucceeds p` is `os.Stat(p)` returning no error for a path that is
not the clone target (the clone target's existence is tracked in the
threaded path list); `isDir`, `readFile`, `homeDir`, `parseSSHKey`
model `fi.IsDir()`, `os.ReadFile`, `os.UserHomeDir` and
`ssh.NewPublicKeys`.  `cloneSucceeds url auth` is whether
`git.PlainClone` succeeds at the transport layer; on success the
resulting repository has local branches `clonedBranches url` with tips
`clonedTips url` and `clonedHead url` checked out.  `worktreeOk` is
`repo.Worktree()` succeeding, and `checkoutCreateOk url b` is the
create-checkout of branch `b` succeeding in the library. -/
structure World where
  statSucceeds : String → Bool
  isDir : String → Bool
  readFile : String → Option String
  homeDir : Option String
  parseSSHKey : String → Bool
  cloneSucceeds : String → Option Credentials → Bool
  clonedBranches : String → List String
  clonedTips : String → List (String × String)
  clonedHead : String → String
  worktreeOk : Bool
  checkoutCreateOk : String → String → Bool

/-- Model of `filepath.Join` on two components as it behaves on the cleaned,
separator-free components this code joins (`home ++ "/.ssh"`, key
names, key directories). -/
def filepathJoin (a b : String) : String := a ++ "/" ++ b

/-- Go's `strings.HasPrefix s pre`: the characters of `pre` are an
initial segment of the characters of `s`. -/
def goHasPre (s pre : String) : Bool := pre.data.isPrefixOf s.data

/-- The key-path resolution step of `createSSHAuth`
(`src/git/git.go` lines 153–166): home-dir default when the argument
is empty; append the key name when the argument is an existing
directory; use the argument verbatim otherwise. -/
def resolveSSHKeyPath (env : Env) (w : World) (keyPath : String) :
    Except SSHAuthError String :=
  if keyPath = "" then
    match w.homeDir with
    | none => .error .homeDirLookupFailed
    | some homeDir =>
      let keyName := GetEnvOrDefault env "SSH_KEY_NAME" "id_rsa"
      .ok (filepathJoin (filepathJoin homeDir ".ssh") keyName)
  else
    if w.statSucceeds keyPath && w.isDir keyPath then
      let keyName := GetEnvOrDefault env "SSH_KEY_NAME" "id_rsa"
      .ok (filepathJoin keyPath keyName)
    else
      .ok keyPath

/-- The remainder of `createSSHAuth`: read the resolved key file and
build `ssh.PublicKeys` from its contents. -/
def createSSHAuth (env : Env) (w : World) (keyPath : String) :
    Except SSHAuthError Credentials :=
  match resolveSSHKeyPath env w keyPath with
  | .error e => .error e
  | .ok kp =>
    match w.readFile kp with
    | none => .error (.readKeyFailed kp)
    | some sshKey =>
      if w.parseSSHKey sshKey then .ok (.sshAuth kp sshKey)
      else .error (.parseKeyFailed kp)

/-- The `cloneOpts.Auth` assignment chain in `clone`
(`src/git/git.go` lines 104–118): `https://` urls get basic auth from
the options' username/password fields, `git@`/`ssh://` urls get SSH
auth from `createSSHAuth(opts.SSHKeyPath)`, any other url leaves
`Auth` nil (`none`). -/
def resolveCredentials (env : Env) (w : World) (opts : GitCloneOptions) :
    Except GitError (Option Credentials) :=
  if goHasPre opts.url "https://" then
    .ok (some (.basicAuth opts.username opts.password))
  else if goHasPre opts.url "git@" || goHasPre opts.url "ssh://" then
    match createSSHAuth env w opts.sshKeyPath with
    | .error e => .error (.sshAuthError e)
    | .ok auth => .ok (some auth)
  else
    .ok none

/-- Result of `clone`: the Go function's error-or-nil return, enriched
with the branch name it reports on success (the source prints it), the
filesystem path list after the call, and the repository state when a
clone happened. -/
structure CloneResult where
  outcome : Except GitError String
  fs : List String
  repo : Option RepoState

/-- Function `clone` from `src/git/git.go` lines 93–150.  Pre-check the target
directory (`os.Stat(opts.Directory)` succeeding means it exists:
membership in the threaded path list), resolve credentials by URL
prefix, `git.PlainClone` (adds the directory to the filesystem on
success), get the worktree, check out `refs/heads/development` if that
local branch exists, otherwise create and check out
`development/<USER>` rooted at the current HEAD. -/
def clone (env : Env) (w : World) (opts : GitCloneOptions) (fs : List String) :
    CloneResult :=
  if opts.directory ∈ fs then
    ⟨.error (.directoryExistsError opts.directory), fs, none⟩
  else
    match resolveCredentials env w opts with
    | .error e => ⟨.error e, fs, none⟩
    | .ok auth =>
      if w.cloneSucceeds opts.url auth then
        let fs' := opts.directory :: fs
        let repo : RepoState :=
          ⟨w.clonedBranches opts.url, w.clonedTips opts.url, w.clonedHead opts.url⟩
        if w.worktreeOk then
          if "development" ∈ repo.branches then
            ⟨.ok "development", fs', some { repo with head := "development" }⟩
          else
            let newBranch := "development/" ++ env "USER"
            if w.checkoutCreateOk opts.url newBranch then
              ⟨.ok newBranch, fs',
                some ⟨newBranch :: repo.branches,
                      (newBranch, ((repo.tips.lookup repo.head).getD "")) :: repo.tips,
                      newBranch⟩⟩
            else
              ⟨.error (.branchCreateError newBranch), fs', some repo⟩
        else
          ⟨.error .worktreeError, fs', some repo⟩
      else
        ⟨.error (.cloneError opts.url), fs, none⟩

/-- Function `fetchRepositories` from `src/git/git.go` lines 65–74: clone each
spec in order; on the first clone error return it wrapped with the
repository url ("error cloning %s: %w") and stop; return `ok` only
after every clone succeeded.  The path list is threaded through the
successive clones. -/
def fetchRepositories (env : Env) (w : World) :
    List GitCloneOptions → List String →
    Except (String × GitError) Unit × List String
  | [], fs => (.ok (), fs)
  | opts :: rest, fs =>
    let r := clone env w opts fs
    match r.outcome with
    | .error e => (.error (opts.url, e), r.fs)
    | .ok _ => fetchRepositories env w rest r.fs

/-!  Concrete sample environment, world and repository specs, used to
instantiate the theorems below on closed inputs. -/

/-- A sample environment: `USER=alice`, `GIT_USER=bob`,
`GIT_TOKEN=tok`, everything else unset. -/
def exEnv : Env := fun k =>
  if k = "USER" then "alice"
  else if k = "GIT_USER" then "bob"
  else if k = "GIT_TOKEN" then "tok"
  else ""

/-- A sample world: every transport clone succeeds, every cloned
repository has the single local branch `main` at commit `abc123`, the
worktree and branch creation always succeed. -/
def exWorld : World where
  statSucceeds := fun _ => false
  isDir := fun _ => false
  readFile := fun _ => some "RAWKEY"
  homeDir := some "/home/alice"
  parseSSHKey := fun _ => true
  cloneSucceeds := fun _ _ => true
  clonedBranches := fun _ => ["main"]
  clonedTips := fun _ => [("main", "abc123")]
  clonedHead := fun _ => "main"
  worktreeOk := true
  checkoutCreateOk := fun _ _ => true

/-- Sample spec whose target directory will pre-exist. -/
def exSpecFail : GitCloneOptions :=
  ⟨"https://host/a.git", "/tmp/a", "bob", "tok", "", "id_rsa"⟩

/-- Sample spec that clones cleanly. -/
def exSpecOk : GitCloneOptions :=
  ⟨"https://host/b.git", "/tmp/b", "bob", "tok", "", "id_rsa"⟩

/-- Sample spec whose url matches no supported scheme. -/
def exSpecOther : GitCloneOptions :=
  ⟨"file:///srv/c.git", "/tmp/c", "", "", "", "id_rsa"⟩

/-!  Helper lemmas about `goHasPre`. -/

/-- A string having a non-empty literal as initial segment starts with
that literal's first character. -/
theorem goHasPre_head (s pre : String) (c : Char) (cs : List Char)
    (hpre : pre.data = c :: cs) (h : goHasPre s pre = true) :
    ∃ t, s.data = c :: t := by
  unfold goHasPre at h
  rw [hpre] at h
  cases hs : s.data with
  | nil => rw [hs] at h; simp [List.isPrefixOf] at h
  | cons b bs =>
    rw [hs] at h
    simp [List.isPrefixOf] at h
    exact ⟨bs, by rw [h.1]⟩

/-- A url starting with `git@` or `ssh://` does not start with
`https://`. -/
theorem goHasPre_https_false (s : String)
    (h : goHasPre s "git@" = true ∨ goHasPre s "ssh://" = true) :
    goHasPre s "https://" = false := by
  have hhead : ∃ t, s.data = 'g' :: t ∨ s.data = 's' :: t := by
    rcases h with h | h
    · obtain ⟨t, ht⟩ := goHasPre_head s "git@" 'g' ['i', 't', '@'] rfl h
      exact ⟨t, Or.inl ht⟩
    · obtain ⟨t, ht⟩ := goHasPre_head s "ssh://" 's' ['s', 'h', ':', '/', '/'] rfl h
      exact ⟨t, Or.inr ht⟩
  obtain ⟨t, ht | ht⟩ := hhead <;>
    · unfold goHasPre
      rw [ht]
      rfl

/-- C4: cloning into a target directory that already exists fails
immediately with `directoryExistsError` and performs no filesystem
writes: the path list comes back unchanged and no repository state is
produced. -/
theorem clone_directory_preexists (env : Env) (w : World)
    (opts : GitCloneOptions) (fs : List String)
    (h : opts.directory ∈ fs) :
    clone env w opts fs
      = ⟨.error (.directoryExistsError opts.directory), fs, none⟩ := by
  unfold clone
  simp [h]

/-- Witness for C4 at a concrete pre-existing directory. -/
theorem clone_directory_preexists_witness :
    clone exEnv exWorld exSpecFail ["/tmp/a"]
      = ⟨.error (.directoryExistsError "/tmp/a"), ["/tmp/a"], none⟩ :=
  clone_directory_preexists exEnv exWorld exSpecFail ["/tmp/a"] (by decide)

/-- C9: the environment helper returns the default exactly when the
variable reads as the empty string — which in Go covers both an unset
variable and one set to the empty string — and in particular an empty
`SSH_KEY_NAME` resolves the key name to `id_rsa`. -/
theorem getEnvOrDefault_empty_is_default (env : Env) (key d : String) :
    (env key = "" → GetEnvOrDefault env key d = d)
    ∧ (env key ≠ "" → GetEnvOrDefault env key d = env key)
    ∧ (env "SSH_KEY_NAME" = "" →
        GetEnvOrDefault env "SSH_KEY_NAME" "id_rsa" = "id_rsa") := by
  refine ⟨fun h => ?_, fun h => ?_, fun h => ?_⟩ <;> simp [GetEnvOrDefault, h]

/-- Witness for C9: in the sample environment `SSH_KEY_NAME` reads as
empty and the key name resolves to `id_rsa`. -/
theorem getEnvOrDefault_empty_is_default_witness :
    GetEnvOrDefault exEnv "SSH_KEY_NAME" "id_rsa" = "id_rsa" :=
  (getEnvOrDefault_empty_is_default exEnv "SSH_KEY_NAME" "id_rsa").2.2 rfl

/-- C10: `clone` never reads the `sshKeyName` field — two option
records that differ only in that field behave identically (key-name
resolution happens inside `createSSHAuth` from the environment, which
receives only the `sshKeyPath` field). -/
theorem clone_ignores_sshKeyName (env : Env) (w : World) (fs : List String)
    (o1 o2 : GitCloneOptions)
    (hurl : o1.url = o2.url) (hdir : o1.directory = o2.directory)
    (hu : o1.username = o2.username) (hpw : o1.password = o2.password)
    (hkp : o1.sshKeyPath = o2.sshKeyPath) :
    clone env w o1 fs = clone env w o2 fs := by
  cases o1 with
  | mk u d un pw kp kn =>
    cases o2 with
    | mk u2 d2 un2 pw2 kp2 kn2 =>
      dsimp only at hurl hdir hu hpw hkp
      subst hurl hdir hu hpw hkp
      rfl

/-- A copy of `exSpecOk` with a different `sshKeyName` field. -/
def exSpecOkAltKey : GitCloneOptions :=
  ⟨"https://host/b.git", "/tmp/b", "bob", "tok", "", "other_key"⟩

/-- Witness for C10 on two concrete specs differing only in
`sshKeyName`. -/
theorem clone_ignores_sshKeyName_witness :
    clone exEnv exWorld exSpecOk [] = clone exEnv exWorld exSpecOkAltKey [] :=
  clone_ignores_sshKeyName exEnv exWorld [] exSpecOk exSpecOkAltKey
    rfl rfl rfl rfl rfl

/-- C3: for an `https://` url the resolved credentials are always the
basic-auth variant carrying `GIT_USER`/`GIT_TOKEN` (empty defaults),
and the resolution is unchanged under any variation of the remaining
environment variables, the SSH-related ones included. -/
theorem https_credentials_basicAuth (env : Env) (w : World)
    (r : GitCloneOptions) (h : goHasPre r.url "https://" = true) :
    resolveCredentials env w (setupRepo env r)
      = .ok (some (.basicAuth (GetEnvOrDefault env "GIT_USER" "")
                              (GetEnvOrDefault env "GIT_TOKEN" "")))
    ∧ ∀ env2 : Env, env2 "GIT_USER" = env "GIT_USER" →
        env2 "GIT_TOKEN" = env "GIT_TOKEN" →
        resolveCredentials env2 w (setupRepo env2 r)
          = resolveCredentials env w (setupRepo env r) := by
  have key : ∀ e : Env, resolveCredentials e w (setupRepo e r)
      = .ok (some (.basicAuth (GetEnvOrDefault e "GIT_USER" "")
                              (GetEnvOrDefault e "GIT_TOKEN" ""))) := by
    intro e
    unfold resolveCredentials setupRepo
    simp [h]
  refine ⟨key env, fun env2 h2u h2t => ?_⟩
  rw [key env2, key env]
  simp [GetEnvOrDefault, h2u, h2t]

/-- Witness for C3 on a concrete `https://` spec. -/
theorem https_credentials_basicAuth_witness :
    resolveCredentials exEnv exWorld (setupRepo exEnv exSpecOk)
      = .ok (some (.basicAuth "bob" "tok")) :=
  (https_credentials_basicAuth exEnv exWorld exSpecOk (by decide)).1

/-- C2: for a `git@` or `ssh://` url any successfully resolved
credential is the SSH variant, its key path being what
`resolveSSHKeyPath` yields on the environment's `SSH_KEY_PATH`; and
that resolution gives `<home>/.ssh/<keyName>` when the path is empty,
`<path>/<keyName>` when it is an existing directory, and the path
verbatim otherwise, with `keyName` being `SSH_KEY_NAME` or `id_rsa`. -/
theorem ssh_credentials_keyPath (env : Env) (w : World) (r : GitCloneOptions)
    (h : goHasPre r.url "git@" = true ∨ goHasPre r.url "ssh://" = true) :
    (∀ c, resolveCredentials env w (setupRepo env r) = .ok (some c) →
        ∃ p key, c = .sshAuth p key
          ∧ resolveSSHKeyPath env w (GetEnvOrDefault env "SSH_KEY_PATH" "")
              = .ok p)
    ∧ (∀ home, w.homeDir = some home →
        resolveSSHKeyPath env w ""
          = .ok (filepathJoin (filepathJoin home ".ssh")
                  (GetEnvOrDefault env "SSH_KEY_NAME" "id_rsa")))
    ∧ (∀ kp, kp ≠ "" → w.statSucceeds kp = true → w.isDir kp = true →
        resolveSSHKeyPath env w kp
          = .ok (filepathJoin kp (GetEnvOrDefault env "SSH_KEY_NAME" "id_rsa")))
    ∧ (∀ kp, kp ≠ "" → ¬(w.statSucceeds kp = true ∧ w.isDir kp = true) →
        resolveSSHKeyPath env w kp = .ok kp) := by
  have hhttps := goHasPre_https_false r.url h
  have hor : (goHasPre r.url "git@" || goHasPre r.url "ssh://") = true := by
    rcases h with h | h <;> simp [h]
  refine ⟨?_, ?_, ?_, ?_⟩
  · intro c hc
    unfold resolveCredentials setupRepo at hc
    simp [hhttps, hor] at hc
    unfold createSSHAuth at hc
    rcases hres : resolveSSHKeyPath env w (GetEnvOrDefault env "SSH_KEY_PATH" "")
      with e | p
    · rw [hres] at hc; simp at hc
    · rw [hres] at hc
      rcases hread : w.readFile p with _ | key
      · simp [hread] at hc
      · by_cases hparse : w.parseSSHKey key = true
        · simp [hread, hparse] at hc
          exact ⟨p, key, hc.symm, rfl⟩
        · simp [hread, hparse] at hc
  · intro home hhome
    unfold resolveSSHKeyPath
    simp [hhome]
  · intro kp hkp hs hd
    unfold resolveSSHKeyPath
    simp [hkp, hs, hd]
  · intro kp hkp hnd
    have hand : (w.statSucceeds kp && w.isDir kp) = false := by
      cases hs : w.statSucceeds kp <;> cases hd : w.isDir kp <;> simp_all
    unfold resolveSSHKeyPath
    simp [hkp, hand]

/-- Sample SSH spec. -/
def exSpecSSH : GitCloneOptions :=
  ⟨"git@host:d.git", "/tmp/d", "", "", "", "id_rsa"⟩

/-- Witness for C2: with `SSH_KEY_PATH` unset, the key path resolves
under the home directory and the credential is the SSH variant. -/
theorem ssh_credentials_keyPath_witness :
    (∃ p key,
        Credentials.sshAuth "/home/alice/.ssh/id_rsa" "RAWKEY" = .sshAuth p key
        ∧ resolveSSHKeyPath exEnv exWorld (GetEnvOrDefault exEnv "SSH_KEY_PATH" "")
            = .ok p)
    ∧ resolveSSHKeyPath exEnv exWorld "" = .ok "/home/alice/.ssh/id_rsa" :=
  ⟨(ssh_credentials_keyPath exEnv exWorld exSpecSSH (Or.inl rfl)).1 _ rfl,
   (ssh_credentials_keyPath exEnv exWorld exSpecSSH (Or.inl rfl)).2.1
     "/home/alice" rfl⟩

/-- C6: when the clone succeeds and the cloned repository has a local
`development` branch, `clone` reports success with branch name
`development` and the working tree ends on exactly that branch. -/
theorem clone_checks_out_development (env : Env) (w : World)
    (opts : GitCloneOptions) (fs : List String) (auth : Option Credentials)
    (hdir : opts.directory ∉ fs)
    (hcred : resolveCredentials env w opts = .ok auth)
    (hclone : w.cloneSucceeds opts.url auth = true)
    (hwt : w.worktreeOk = true)
    (hdev : "development" ∈ w.clonedBranches opts.url) :
    (clone env w opts fs).outcome = .ok "development"
    ∧ ∃ repo, (clone env w opts fs).repo = some repo
        ∧ repo.head = "development" := by
  unfold clone
  simp [hdir, hcred, hclone, hwt, hdev]

/-- Sample world whose cloned repositories carry a `development`
branch. -/
def exWorldDev : World :=
  { exWorld with clonedBranches := fun _ => ["development", "main"] }

/-- Witness for C6 on a concrete spec in a world with a `development`
branch. -/
theorem clone_checks_out_development_witness :
    (clone exEnv exWorldDev exSpecOk []).outcome = .ok "development"
    ∧ ∃ repo, (clone exEnv exWorldDev exSpecOk []).repo = some repo
        ∧ repo.head = "development" :=
  clone_checks_out_development exEnv exWorldDev exSpecOk []
    (some (.basicAuth "bob" "tok")) (by decide) rfl rfl rfl (by decide)

/-- C5: when the clone succeeds and the cloned repository lacks a
local `development` branch, `clone` creates and checks out
`development/<USER>`, the new branch pointing at the commit the cloned
HEAD pointed at, and reports that branch name. -/
theorem clone_creates_user_branch (env : Env) (w : World)
    (opts : GitCloneOptions) (fs : List String) (auth : Option Credentials)
    (tip : String)
    (hdir : opts.directory ∉ fs)
    (hcred : resolveCredentials env w opts = .ok auth)
    (hclone : w.cloneSucceeds opts.url auth = true)
    (hwt : w.worktreeOk = true)
    (hnodev : "development" ∉ w.clonedBranches opts.url)
    (hcreate : w.checkoutCreateOk opts.url ("development/" ++ env "USER") = true)
    (htip : (w.clonedTips opts.url).lookup (w.clonedHead opts.url) = some tip) :
    (clone env w opts fs).outcome = .ok ("development/" ++ env "USER")
    ∧ (clone env w opts fs).fs = opts.directory :: fs
    ∧ ∃ repo, (clone env w opts fs).repo = some repo
        ∧ repo.head = "development/" ++ env "USER"
        ∧ ("development/" ++ env "USER") ∈ repo.branches
        ∧ repo.tips.lookup ("development/" ++ env "USER") = some tip := by
  unfold clone
  simp [hdir, hcred, hclone, hwt, hnodev, hcreate, List.lookup, htip]

/-- Witness for C5: cloning in the sample world (no `development`
branch) lands on `development/alice` rooted at commit `abc123`. -/
theorem clone_creates_user_branch_witness :
    (clone exEnv exWorld exSpecOk []).outcome = .ok "development/alice"
    ∧ (clone exEnv exWorld exSpecOk []).fs = ["/tmp/b"]
    ∧ ∃ repo, (clone exEnv exWorld exSpecOk []).repo = some repo
        ∧ repo.head = "development/alice"
        ∧ "development/alice" ∈ repo.branches
        ∧ repo.tips.lookup "development/alice" = some "abc123" :=
  clone_creates_user_branch exEnv exWorld exSpecOk []
    (some (.basicAuth "bob" "tok")) "abc123"
    (by decide) rfl rfl rfl (by decide) rfl rfl

/-- C8: when the clone succeeds but the subsequent branch creation
fails, `clone` reports `branchCreateError` while the cloned directory
stays on disk — the clone is not rolled back. -/
theorem clone_branch_failure_keeps_clone (env : Env) (w : World)
    (opts : GitCloneOptions) (fs : List String) (auth : Option Credentials)
    (hdir : opts.directory ∉ fs)
    (hcred : resolveCredentials env w opts = .ok auth)
    (hclone : w.cloneSucceeds opts.url auth = true)
    (hwt : w.worktreeOk = true)
    (hnodev : "development" ∉ w.clonedBranches opts.url)
    (hcreate : w.checkoutCreateOk opts.url ("development/" ++ env "USER") = false) :
    (clone env w opts fs).outcome
      = .error (.branchCreateError ("development/" ++ env "USER"))
    ∧ opts.directory ∈ (clone env w opts fs).fs := by
  unfold clone
  simp [hdir, hcred, hclone, hwt, hnodev, hcreate]

/-- Sample world in which branch creation always fails. -/
def exWorldNoCreate : World :=
  { exWorld with checkoutCreateOk := fun _ _ => false }

/-- Witness for C8: branch creation fails, the error surfaces, the
cloned directory remains. -/
theorem clone_branch_failure_keeps_clone_witness :
    (clone exEnv exWorldNoCreate exSpecOk []).outcome
      = .error (.branchCreateError "development/alice")
    ∧ "/tmp/b" ∈ (clone exEnv exWorldNoCreate exSpecOk []).fs :=
  clone_branch_failure_keeps_clone exEnv exWorldNoCreate exSpecOk []
    (some (.basicAuth "bob" "tok"))
    (by decide) rfl rfl rfl (by decide) rfl

/-- C1 counterexample: two specs, the first failing on a pre-existing
directory while the second would clone cleanly.  The orchestrator
returns a single wrapped error — not two per-repository results — and
the second spec is never processed: its directory is absent from the
final filesystem even though its clone, run directly, succeeds. -/
theorem fetchRepositories_not_perRepo_counterexample :
    (fetchRepositories exEnv exWorld [exSpecFail, exSpecOk] ["/tmp/a"]).1
      = .error ("https://host/a.git", .directoryExistsError "/tmp/a")
    ∧ (fetchRepositories exEnv exWorld [exSpecFail, exSpecOk] ["/tmp/a"]).2
      = ["/tmp/a"]
    ∧ (clone exEnv exWorld exSpecOk ["/tmp/a"]).outcome
      = .ok "development/alice" :=
  ⟨rfl, rfl, rfl⟩

/-- C1 amended: the orchestrator aborts on the first failing spec,
returning that spec's error wrapped with its url and never attempting
the remaining specs; it proceeds to the rest exactly when the head
spec's clone succeeded. -/
theorem fetchRepositories_aborts_on_first_error (env : Env) (w : World)
    (opts : GitCloneOptions) (rest : List GitCloneOptions) (fs : List String) :
    (∀ e, (clone env w opts fs).outcome = .error e →
        fetchRepositories env w (opts :: rest) fs
          = (.error (opts.url, e), (clone env w opts fs).fs))
    ∧ (∀ b, (clone env w opts fs).outcome = .ok b →
        fetchRepositories env w (opts :: rest) fs
          = fetchRepositories env w rest ((clone env w opts fs).fs)) := by
  constructor <;> intro x hx <;> simp only [fetchRepositories] <;>
    rw [hx]

/-- Witness for the amended C1 on the concrete failing batch. -/
theorem fetchRepositories_aborts_on_first_error_witness :
    fetchRepositories exEnv exWorld [exSpecFail, exSpecOk] ["/tmp/a"]
      = (.error ("https://host/a.git", .directoryExistsError "/tmp/a"),
         ["/tmp/a"]) :=
  (fetchRepositories_aborts_on_first_error exEnv exWorld exSpecFail
      [exSpecOk] ["/tmp/a"]).1 (.directoryExistsError "/tmp/a") rfl

/-- C7 counterexample: a `file://` url resolves without any error and
without any credentials — there is no unsupported-scheme failure in
the code (the source's error taxonomy has no such case) — and the
clone proceeds unauthenticated, here succeeding outright. -/
theorem unsupported_scheme_counterexample :
    resolveCredentials exEnv exWorld exSpecOther = .ok none
    ∧ (clone exEnv exWorld exSpecOther []).outcome = .ok "development/alice" :=
  ⟨rfl, rfl⟩

/-- C7 amended: for a url matching neither `https://` nor
`git@`/`ssh://`, credential resolution yields no credentials at all —
the auth option stays nil, no error is raised, and the clone is
attempted unauthenticated. -/
theorem unsupported_scheme_no_credentials (env : Env) (w : World)
    (opts : GitCloneOptions)
    (h1 : goHasPre opts.url "https://" = false)
    (h2 : goHasPre opts.url "git@" = false)
    (h3 : goHasPre opts.url "ssh://" = false) :
    resolveCredentials env w opts = .ok none := by
  unfold resolveCredentials
  simp [h1, h2, h3]

/-- Witness for the amended C7 on the concrete `file://` spec. -/
theorem unsupported_scheme_no_credentials_witness :
    resolveCredentials exEnv exWorld exSpecOther = .ok none :=
  unsupported_scheme_no_credentials exEnv exWorld exSpecOther rfl rfl rfl
